import Mathlib

/-!
# Verification of `src/index.js` (mongo-centralized)

Shallow embedding of the connection lifecycle manager in `src/index.js`.

The source is a Node.js module with module-level mutable state
(`client`, `clientPromise`), an async retrying `connectToDatabase`,
lookup helpers `getDatabase` / `getCollection`, an `initializeDatabase`
eager starter, an idempotent-ish `closeDatabase`, a signal-driven
`setupGracefulShutdown`, and an `init` constructor that merges options.

Embedding conventions:
* The backing driver (`MongoClient`, `connect`, `db`, `collection`,
  `close`) is opaque; its behaviour is a parameter:
  `connectOk : Nat → Bool` gives the outcome of the i-th backing
  `connect()` invocation (indexed by how many connect invocations
  happened before, counted in the event trace), `collErr` gives the
  error marker the driver places on a resolved collection handle, and
  `closeOk : Bool` gives the outcome of the backing `close()` call.
* `async`/`await` with a single caller is modelled by explicit state
  passing over the module state `MState`; at every quiescent point
  (entry/exit of the exported functions) the JS promise in
  `clientPromise` is either settled-successful (`some c`, resolving to
  the client, as `client.connect()` resolves to the client) or absent
  (`none`): the source nulls `clientPromise` in its catch block before
  every retry and before throwing, so a rejected promise is never left
  stored.
* The source hardcodes `MAX_RETRIES = 5` and `RETRY_DELAY = 5000`; the
  embedding takes them as parameters `maxRetries`/`retryDelay` and the
  constants below give the source's values.
* Machine integers: all counts fit far below 2^53 (JS safe integers);
  Nat is used with no overflow modelling needed.
* The event trace records each backing connect invocation (with the
  `url`/`options` the `MongoClient` was constructed from) and each
  `setTimeout` wait, so "number of attempts" and "total wait" are
  functions of the trace.
-/

/-- `MAX_RETRIES = 5` in `src/index.js` line 10. -/
def MAX_RETRIES : Nat := 5

/-- `RETRY_DELAY = 5000` (milliseconds) in `src/index.js` line 11. -/
def RETRY_DELAY : Nat := 5000

/-- MongoDB client options. `maxPoolSize` is `Option Nat`: `none` models the
JS value `undefined` stored under the `maxPoolSize` key (which is what
`{ ...defaultOptions, maxPoolSize }` produces when the `maxPoolSize`
argument is not supplied). -/
structure ConnOptions where
  useNewUrlParser : Bool
  useUnifiedTopology : Bool
  maxPoolSize : Option Nat
  deriving Repr, DecidableEq

/-- `defaultOptions` from `src/index.js` line 5. -/
def defaultOptions : ConnOptions :=
  { useNewUrlParser := true, useUnifiedTopology := true, maxPoolSize := some 10 }

/-- `new MongoClient(url, options)`: the driver client is opaque; the manager
only ever feeds it the construction arguments, so it is modelled by them. -/
structure MongoClient where
  url : String
  options : ConnOptions
  deriving Repr, DecidableEq

/-- Observable driver-level events of one module lifetime:
a backing `connect()` invocation (`client.connect()` on a client built from
the given url/options) or a `setTimeout` wait of `ms` milliseconds. -/
inductive Ev where
  | connect (url : String) (options : ConnOptions)
  | wait (ms : Nat)
  deriving Repr, DecidableEq

/-- Number of backing connect invocations recorded in a trace. -/
def countConnects : List Ev → Nat
  | [] => 0
  | .connect _ _ :: rest => countConnects rest + 1
  | .wait _ :: rest => countConnects rest

/-- Total milliseconds waited in a trace. -/
def totalWait : List Ev → Nat
  | [] => 0
  | .connect _ _ :: rest => totalWait rest
  | .wait ms :: rest => ms + totalWait rest

/-- The module-level state of `src/index.js`: `client` (line 7) and
`clientPromise` (line 8), plus the event trace of the driver calls made so
far (instrumentation, not source state: it only records what happened). -/
structure MState where
  client : Option MongoClient
  clientPromise : Option MongoClient
  events : List Ev
  deriving Repr, DecidableEq

/-- The state when the module is first loaded: both `client` and
`clientPromise` are `undefined`. -/
def mstateInit : MState := { client := none, clientPromise := none, events := [] }

/-- Errors crossing the module boundary. `retriesExhausted` is the
`Error('Failed to connect to database after several attempts.')` thrown at
line 31; `lookup e` is the `collection.error` thrown at line 50; `closeFailed`
is a rejection of the backing `client.close()` at line 63, which the source
does not catch. -/
inductive DbError where
  | retriesExhausted
  | lookup (e : String)
  | closeFailed
  deriving Repr, DecidableEq

/-- `connectToDatabase(url, options, retries = 0)` from `src/index.js`
lines 14–36, with the always-failing/succeeding behaviour of the backing
`client.connect()` supplied by `connectOk` (indexed by the number of connect
invocations already made).

Line-by-line: if `clientPromise` is set, return it (line 35) — the memoized
promise resolves to the stored client. Otherwise construct
`new MongoClient(url, options)` (line 17), store it in `client`, invoke
`client.connect()` (line 20, recorded in the trace) and await it. On
success the promise (resolving to the client) stays in `clientPromise` and
is returned. On failure the catch block (lines 22–32) nulls
`clientPromise`, and if `retries < MAX_RETRIES` increments `retries`, waits
`RETRY_DELAY` and recurses; else it throws. `maxRetries`/`retryDelay`
abstract the source constants `MAX_RETRIES`/`RETRY_DELAY`. -/
def connectToDatabase (maxRetries retryDelay : Nat) (connectOk : Nat → Bool)
    (url : String) (options : ConnOptions) (retries : Nat) (s : MState) :
    Except DbError MongoClient × MState :=
  match s.clientPromise with
  | some p => (.ok p, s)
  | none =>
    let c : MongoClient := { url := url, options := options }
    let s1 : MState :=
      { s with client := some c, events := s.events ++ [.connect url options] }
    if connectOk (countConnects s.events) then
      (.ok c, { s1 with clientPromise := some c })
    else
      if hr : retries < maxRetries then
        connectToDatabase maxRetries retryDelay connectOk url options (retries + 1)
          { s1 with events := s1.events ++ [.wait retryDelay] }
      else
        (.error .retriesExhausted, s1)
termination_by maxRetries - retries
decreasing_by omega

/-- A database handle: `client.db(dbName)` returns the driver's database
object for `dbName` on that client; opaque, so modelled by its origin. -/
structure Db where
  ofClient : MongoClient
  name : String
  deriving Repr, DecidableEq

/-- `client.db(dbName)` (lines 41 and 47). -/
def MongoClient.db (c : MongoClient) (dbName : String) : Db :=
  { ofClient := c, name := dbName }

/-- A collection handle as `db.collection(collectionName)` returns it
(line 49): the driver may set an `error` marker on it, which the backing
capability `collErr` decides from the database and collection names. -/
structure Collection where
  ofDb : Db
  name : String
  error : Option String
  deriving Repr, DecidableEq

/-- `db.collection(collectionName)` (line 49), with the driver's error
marker supplied by the backing capability `collErr`. -/
def Db.collection (d : Db) (collErr : String → String → Option String)
    (collectionName : String) : Collection :=
  { ofDb := d, name := collectionName, error := collErr d.name collectionName }

/-- `getDatabase(url, options, dbName)` from lines 39–42: awaits
`connectToDatabase(url, options)` — an external call, so `retries` is the
default `0` — then returns `client.db(dbName)`. -/
def getDatabase (maxRetries retryDelay : Nat) (connectOk : Nat → Bool)
    (url : String) (options : ConnOptions) (dbName : String) (s : MState) :
    Except DbError Db × MState :=
  match connectToDatabase maxRetries retryDelay connectOk url options 0 s with
  | (.ok c, s1) => (.ok (c.db dbName), s1)
  | (.error e, s1) => (.error e, s1)

/-- `getCollection(url, options, dbName, collectionName)` from lines 45–52:
awaits `connectToDatabase(url, options)` (external call, `retries = 0`),
resolves `client.db(dbName).collection(collectionName)`, and throws
`collection.error` when the handle carries one (line 50); otherwise
returns the handle. -/
def getCollection (maxRetries retryDelay : Nat) (connectOk : Nat → Bool)
    (collErr : String → String → Option String)
    (url : String) (options : ConnOptions) (dbName collectionName : String)
    (s : MState) : Except DbError Collection × MState :=
  match connectToDatabase maxRetries retryDelay connectOk url options 0 s with
  | (.error e, s1) => (.error e, s1)
  | (.ok c, s1) =>
    let d := c.db dbName
    let coll := d.collection collErr collectionName
    match coll.error with
    | some e => (.error (.lookup e), s1)
    | none => (.ok coll, s1)

/-- `initializeDatabase(url, options)` from lines 55–58: awaits
`connectToDatabase(url, options)` (external call, `retries = 0`) and
discards the connection. -/
def initializeDatabase (maxRetries retryDelay : Nat) (connectOk : Nat → Bool)
    (url : String) (options : ConnOptions) (s : MState) :
    Except DbError Unit × MState :=
  match connectToDatabase maxRetries retryDelay connectOk url options 0 s with
  | (.ok _, s1) => (.ok (), s1)
  | (.error e, s1) => (.error e, s1)

/-- `closeDatabase()` from lines 61–68: if `client` is set, await
`client.close()` (its outcome supplied by the backing capability
`closeOk`), then null `client` and `clientPromise`. The source does not
catch a rejection of `client.close()`: when it rejects, lines 64–65 do not
run (state is left as it was) and the rejection propagates to the caller.
If `client` is unset, nothing happens. -/
def closeDatabase (closeOk : Bool) (s : MState) : Except DbError Unit × MState :=
  match s.client with
  | none => (.ok (), s)
  | some _ =>
    if closeOk then
      (.ok (), { s with client := none, clientPromise := none })
    else
      (.error .closeFailed, s)

/-- `module.exports.init(urlConnection, maxPoolSize)` builds
`const options = { ...defaultOptions, maxPoolSize }` (line 93). In JS the
explicit `maxPoolSize:` entry of an object literal always overrides the
spread, even when the `maxPoolSize` parameter is `undefined` (modelled by
`none`): the resulting object's `maxPoolSize` key holds the argument as
given, and `defaultOptions.maxPoolSize = 10` is overwritten. -/
def initOptions (maxPoolSize : Option Nat) : ConnOptions :=
  { defaultOptions with maxPoolSize := maxPoolSize }

/-- States of the module reachable from load time (`mstateInit`) by any
sequence of the exported operations, each invoked externally (so with the
default `retries = 0`) against arbitrary backing behaviour and arguments. -/
inductive Reachable : MState → Prop where
  | init : Reachable mstateInit
  | connect (k d : Nat) (b : Nat → Bool) (url : String) (o : ConnOptions)
      {s : MState} : Reachable s →
      Reachable (connectToDatabase k d b url o 0 s).2
  | getDb (k d : Nat) (b : Nat → Bool) (url : String) (o : ConnOptions)
      (dbName : String) {s : MState} : Reachable s →
      Reachable (getDatabase k d b url o dbName s).2
  | getColl (k d : Nat) (b : Nat → Bool)
      (ce : String → String → Option String) (url : String) (o : ConnOptions)
      (dbName collectionName : String) {s : MState} : Reachable s →
      Reachable (getCollection k d b ce url o dbName collectionName s).2
  | initDb (k d : Nat) (b : Nat → Bool) (url : String) (o : ConnOptions)
      {s : MState} : Reachable s →
      Reachable (initializeDatabase k d b url o s).2
  | close (closeOk : Bool) {s : MState} : Reachable s →
      Reachable (closeDatabase closeOk s).2

/-! ## Signal-driven shutdown (`setupGracefulShutdown`, lines 71–82)

The host process and HTTP server are external; the embedding keeps just
what the source manipulates: which signal handlers are installed (lines
80–81 install the same `shutdown` function for `SIGTERM` and `SIGINT`)
and how many times `server.close(...)` has been invoked (line 73 — the
body of `shutdown` calls it unconditionally; the source keeps no
"already shutting down" flag). The callback passed to `server.close`
(lines 73–77) runs once the server finishes closing: it awaits
`closeDatabase()` and then calls `process.exit(0)`. -/

/-- The two termination signals the source listens for. -/
inductive Sig where
  | sigterm
  | sigint
  deriving Repr, DecidableEq

/-- Process-level state the source touches: the installed handlers and the
number of `server.close(...)` invocations so far. -/
structure ProcState where
  termHandler : Bool
  intHandler : Bool
  serverCloseCalls : Nat
  deriving Repr, DecidableEq

/-- Process state before `setupGracefulShutdown` runs: no handlers, no
`server.close` call yet. -/
def procInit : ProcState :=
  { termHandler := false, intHandler := false, serverCloseCalls := 0 }

/-- The inner `shutdown` function (lines 72–78): its body invokes
`server.close(...)` — unconditionally, there is no guard. -/
def shutdown (p : ProcState) : ProcState :=
  { p with serverCloseCalls := p.serverCloseCalls + 1 }

/-- `setupGracefulShutdown(server)` (lines 71–82): registers the same
`shutdown` function for `SIGTERM` and for `SIGINT`. -/
def setupGracefulShutdown (p : ProcState) : ProcState :=
  { p with termHandler := true, intHandler := true }

/-- Delivery of one signal: the process runs the registered handler —
`shutdown` — when one is installed for that signal, else nothing. -/
def deliverSignal (sig : Sig) (p : ProcState) : ProcState :=
  match sig with
  | .sigterm => if p.termHandler then shutdown p else p
  | .sigint => if p.intHandler then shutdown p else p

/-- The callback `shutdown` passes to `server.close` (lines 73–77): once
the server has closed, await `closeDatabase()` and call `process.exit(0)`.
Result: the module state after `closeDatabase` and the exit status passed
to `process.exit` — `some 0` only when `closeDatabase` resolves; when it
rejects, the `await` at line 75 throws, the async callback rejects
unhandled and line 76's `process.exit(0)` is never reached (`none`: no
exit status is passed at all on that path). -/
def shutdownCallback (closeOk : Bool) (s : MState) : MState × Option Nat :=
  match closeDatabase closeOk s with
  | (.ok _, s1) => (s1, some 0)
  | (.error _, s1) => (s1, none)

/-! ## Concurrent `acquire` calls (event-loop model)

`connectToDatabase` is `async` but its code between entry and the first
`await` is synchronous: the `if (!clientPromise)` test, the `new
MongoClient`, and the assignment `clientPromise = client.connect()` run
atomically in the JS event loop (no `await` separates them). So when `n`
callers invoke `connectToDatabase(url, options)` concurrently from the
initial module state:

* the first caller finds `clientPromise` unset, constructs the client and
  stores the attempt promise in `clientPromise`, then awaits it (line 21)
  inside its `try`; on rejection its own catch block drives the retry
  chain — so the first caller's outcome and the driver-event trace are
  exactly those of the single-caller run `connectToDatabase ... 0
  mstateInit`;
* every other caller runs while `clientPromise` holds the first attempt's
  promise, takes the `return clientPromise` path (line 35) — invoking no
  backing connect — and its async result adopts that shared promise: it
  resolves with the client when the first backing connect (index 0)
  succeeds, and rejects with that attempt's error when it fails. A joiner
  is *not* subscribed to the initiator's later retries: the promise it
  adopted is the one the catch block discards. -/

/-- What one caller of a concurrent batch observes. -/
inductive COutcome where
  | ok (c : MongoClient)
  | attemptFailed
  | retriesExhausted
  deriving Repr, DecidableEq

/-- The outcome of the initiating caller: its full retry chain's result. -/
def initiatorOutcome : Except DbError MongoClient → COutcome
  | .ok c => .ok c
  | .error _ => .retriesExhausted

/-- `n` concurrent `connectToDatabase(url, options)` calls from the initial
module state (per the event-loop model above): the list of the `n`
callers' outcomes — initiator first, then the `n - 1` joiners, each of
which observes the settlement of the shared first-attempt promise — and
the final module state, which is that of the initiator's run (joiners
invoke no backing connect and mutate nothing). -/
def concurrentConnect (maxRetries retryDelay : Nat) (connectOk : Nat → Bool)
    (url : String) (options : ConnOptions) (n : Nat) :
    List COutcome × MState :=
  let first := connectToDatabase maxRetries retryDelay connectOk url options 0 mstateInit
  let joiner : COutcome :=
    if connectOk 0 then .ok { url := url, options := options } else .attemptFailed
  (initiatorOutcome first.1 :: List.replicate (n - 1) joiner, first.2)

/-- "All `n` callers observe the same outcome." -/
def allSame (l : List COutcome) : Prop :=
  ∀ x ∈ l, ∀ y ∈ l, x = y

/-! ## Helper lemmas about runs of `connectToDatabase` -/

/-- The driver-event segment appended by a run that makes `m + 1` backing
connect attempts, the first `m` of which fail: a connect invocation, then
`m` repetitions of (a `retryDelay` wait, then another connect invocation).
Failing and succeeding attempts leave the same event. -/
def chainTail (retryDelay : Nat) (url : String) (options : ConnOptions) : Nat → List Ev
  | 0 => [.connect url options]
  | m + 1 => .connect url options :: .wait retryDelay :: chainTail retryDelay url options m

theorem countConnects_append (xs ys : List Ev) :
    countConnects (xs ++ ys) = countConnects xs + countConnects ys := by
  induction xs with
  | nil => simp [countConnects]
  | cons x rest ih =>
    cases x <;> simp [countConnects, ih]
    omega

theorem totalWait_append (xs ys : List Ev) :
    totalWait (xs ++ ys) = totalWait xs + totalWait ys := by
  induction xs with
  | nil => simp [totalWait]
  | cons x rest ih =>
    cases x <;> simp [totalWait, ih]
    omega

theorem countConnects_chainTail (d : Nat) (url : String) (o : ConnOptions) (m : Nat) :
    countConnects (chainTail d url o m) = m + 1 := by
  induction m with
  | zero => simp [chainTail, countConnects]
  | succ m ih => simp [chainTail, countConnects, ih]

theorem totalWait_chainTail (d : Nat) (url : String) (o : ConnOptions) (m : Nat) :
    totalWait (chainTail d url o m) = m * d := by
  induction m with
  | zero => simp [chainTail, totalWait]
  | succ m ih =>
    simp [chainTail, totalWait, ih]
    ring

/-- Memoized path: with `clientPromise` set, `connectToDatabase` returns it
and changes nothing, whatever its arguments. -/
theorem connect_memo (k d : Nat) (b : Nat → Bool) (url : String) (o : ConnOptions)
    (retries : Nat) (s : MState) (c : MongoClient) (hp : s.clientPromise = some c) :
    connectToDatabase k d b url o retries s = (.ok c, s) := by
  rw [connectToDatabase]
  simp [hp]

/-- A run from a promise-free state whose next `(k - retries) + 1` backing
connects all fail: every retry is consumed, the chain ends in the
`retriesExhausted` throw, `client` is left holding the last constructed
(never-connected) client and `clientPromise` is left null. -/
theorem connect_fail_run (k d : Nat) (b : Nat → Bool) (url : String) (o : ConnOptions) :
    ∀ (m retries : Nat) (s : MState), k - retries = m → s.clientPromise = none →
    (∀ i ≤ m, b (countConnects s.events + i) = false) →
    connectToDatabase k d b url o retries s =
      (.error .retriesExhausted,
       { s with client := some { url := url, options := o },
                events := s.events ++ chainTail d url o m }) := by
  intro m
  induction m with
  | zero =>
    intro retries s hm hp hb
    have h0 := hb 0 (Nat.le_refl 0)
    rw [connectToDatabase]
    simp only [Nat.add_zero] at h0
    simp [hp, h0, chainTail, show ¬ retries < k by omega]
  | succ m ih =>
    intro retries s hm hp hb
    have h0 := hb 0 (Nat.zero_le _)
    have hr : retries < k := by omega
    simp only [Nat.add_zero] at h0
    rw [connectToDatabase]
    simp only [hp, h0, Bool.false_eq_true, if_false, hr, dif_pos]
    rw [ih (retries + 1) _ (by omega) (by simp) ?_]
    · simp [chainTail]
    · intro i hi
      simp only [countConnects_append, countConnects]
      have h1 := hb (i + 1) (by omega)
      have h2 : countConnects s.events + 1 + 0 + i = countConnects s.events + (i + 1) := by
        omega
      rw [h2]
      exact h1

/-- A run from a promise-free state whose next `j` backing connects fail and
whose `(j+1)`-th succeeds, with `j` within the remaining retry budget: the
run succeeds, memoizes the connection, and performed `j + 1` connects with a
wait between consecutive ones. -/
theorem connect_succ_run (k d : Nat) (b : Nat → Bool) (url : String) (o : ConnOptions) :
    ∀ (j retries : Nat) (s : MState), j + retries ≤ k → s.clientPromise = none →
    (∀ i < j, b (countConnects s.events + i) = false) →
    b (countConnects s.events + j) = true →
    connectToDatabase k d b url o retries s =
      (.ok { url := url, options := o },
       { client := some { url := url, options := o },
         clientPromise := some { url := url, options := o },
         events := s.events ++ chainTail d url o j }) := by
  intro j
  induction j with
  | zero =>
    intro retries s hk hp hb hs
    simp only [Nat.add_zero] at hs
    rw [connectToDatabase]
    simp [hp, hs, chainTail]
  | succ j ih =>
    intro retries s hk hp hb hs
    have h0 := hb 0 (Nat.succ_pos _)
    have hr : retries < k := by omega
    simp only [Nat.add_zero] at h0
    rw [connectToDatabase]
    simp only [hp, h0, Bool.false_eq_true, if_false, hr, dif_pos]
    rw [ih (retries + 1) _ (by omega) (by simp) ?_ ?_]
    · simp [chainTail]
    · intro i hi
      simp only [countConnects_append, countConnects]
      have h1 := hb (i + 1) (by omega)
      have h2 : countConnects s.events + 1 + 0 + i = countConnects s.events + (i + 1) := by
        omega
      rw [h2]
      exact h1
    · simp only [countConnects_append, countConnects]
      have h2 : countConnects s.events + 1 + 0 + j = countConnects s.events + (j + 1) := by
        omega
      rw [h2]
      exact hs

/-- A successful `connectToDatabase` call always leaves its resulting value
memoized in `clientPromise`. -/
theorem connect_ok_promise (k d : Nat) (b : Nat → Bool) (url : String) (o : ConnOptions) :
    ∀ (m retries : Nat) (s : MState) (c : MongoClient) (s1 : MState), k - retries = m →
    connectToDatabase k d b url o retries s = (.ok c, s1) → s1.clientPromise = some c := by
  intro m
  induction m with
  | zero =>
    intro retries s c s1 hm h
    rw [connectToDatabase] at h
    rcases hp : s.clientPromise with _ | p
    · rw [hp] at h
      simp only [] at h
      rcases hb : b (countConnects s.events) with _ | _ <;> rw [hb] at h
      · simp [show ¬ retries < k by omega] at h
      · simp only [if_true, Prod.mk.injEq] at h
        rw [← h.2]
        simp [← h.1.symm]
        cases h.1
        rfl
    · rw [hp] at h
      simp only [Prod.mk.injEq] at h
      rw [← h.2, hp]
      cases h.1
      rfl
  | succ m ih =>
    intro retries s c s1 hm h
    rw [connectToDatabase] at h
    rcases hp : s.clientPromise with _ | p
    · rw [hp] at h
      simp only [] at h
      rcases hb : b (countConnects s.events) with _ | _ <;> rw [hb] at h
      · have hr : retries < k := by omega
        simp only [hr, dif_pos, Bool.false_eq_true, if_false] at h
        exact ih (retries + 1) _ c s1 (by omega) h
      · simp only [if_true, Prod.mk.injEq] at h
        rw [← h.2]
        cases h.1
        rfl
    · rw [hp] at h
      simp only [Prod.mk.injEq] at h
      rw [← h.2, hp]
      cases h.1
      rfl

/-- Shape of the state a `connectToDatabase` call leaves behind: either the
state is untouched (memoized path), or `client` holds the client constructed
from the call's arguments and `clientPromise` is either that same client
(success) or null (exhaustion). -/
theorem connect_state_shape (k d : Nat) (b : Nat → Bool) (url : String) (o : ConnOptions) :
    ∀ (m retries : Nat) (s : MState), k - retries = m →
    (connectToDatabase k d b url o retries s).2 = s ∨
    ((connectToDatabase k d b url o retries s).2.client = some { url := url, options := o } ∧
     ((connectToDatabase k d b url o retries s).2.clientPromise = none ∨
      (connectToDatabase k d b url o retries s).2.clientPromise =
        some { url := url, options := o })) := by
  intro m
  induction m with
  | zero =>
    intro retries s hm
    rw [connectToDatabase]
    rcases hp : s.clientPromise with _ | p
    · simp only []
      rcases hb : b (countConnects s.events) with _ | _
      · simp [show ¬ retries < k by omega]
      · simp
    · simp
  | succ m ih =>
    intro retries s hm
    rw [connectToDatabase]
    rcases hp : s.clientPromise with _ | p
    · simp only []
      rcases hb : b (countConnects s.events) with _ | _
      · have hr : retries < k := by omega
        simp only [hr, dif_pos, Bool.false_eq_true, if_false]
        rcases ih (retries + 1)
            { client := some { url := url, options := o }, clientPromise := none,
              events := s.events ++ [Ev.connect url o] ++ [Ev.wait d] } (by omega) with h1 | h1
        · right
          rw [h1]
          exact ⟨rfl, Or.inl rfl⟩
        · right
          exact h1
      · simp
    · simp

/-- `getDatabase` touches module state only through its `connectToDatabase`
call. -/
theorem getDatabase_state (k d : Nat) (b : Nat → Bool) (url : String) (o : ConnOptions)
    (dbName : String) (s : MState) :
    (getDatabase k d b url o dbName s).2 = (connectToDatabase k d b url o 0 s).2 := by
  rcases h : connectToDatabase k d b url o 0 s with ⟨r, s1⟩
  cases r <;> simp [getDatabase, h]

/-- `getCollection` touches module state only through its `connectToDatabase`
call. -/
theorem getCollection_state (k d : Nat) (b : Nat → Bool)
    (ce : String → String → Option String) (url : String) (o : ConnOptions)
    (dbName collectionName : String) (s : MState) :
    (getCollection k d b ce url o dbName collectionName s).2 =
      (connectToDatabase k d b url o 0 s).2 := by
  rcases h : connectToDatabase k d b url o 0 s with ⟨r, s1⟩
  cases r with
  | error e => simp [getCollection, h]
  | ok c =>
    simp only [getCollection, h]
    split <;> rfl

/-- `initializeDatabase` touches module state only through its
`connectToDatabase` call. -/
theorem initializeDatabase_state (k d : Nat) (b : Nat → Bool) (url : String)
    (o : ConnOptions) (s : MState) :
    (initializeDatabase k d b url o s).2 = (connectToDatabase k d b url o 0 s).2 := by
  rcases h : connectToDatabase k d b url o 0 s with ⟨r, s1⟩
  cases r <;> simp [initializeDatabase, h]

/-- Shape of the state a `closeDatabase` call leaves behind: untouched, or
both fields nulled. -/
theorem close_state_shape (closeOk : Bool) (s : MState) :
    (closeDatabase closeOk s).2 = s ∨
    ((closeDatabase closeOk s).2.client = none ∧
     (closeDatabase closeOk s).2.clientPromise = none) := by
  rcases hc : s.client with _ | c <;> simp [closeDatabase, hc]
  cases closeOk <;> simp

/-! ## The claims -/

/-- C1: against a backing connect that fails on every attempt, one top-level
`connectToDatabase` call with retry bound `k` performs exactly `k + 1`
backing connect attempts — the event trace is `chainTail d url o k`: a
connect, then `k` repetitions of (a wait of `retryDelayMs`, then a connect),
so a `retryDelayMs` wait separates every two consecutive attempts and the
total wait is `k × retryDelayMs` — and the call fails with the
retries-exhausted connection error. -/
theorem c1_retry_bound (k d : Nat) (url : String) (o : ConnOptions) :
    connectToDatabase k d (fun _ => false) url o 0 mstateInit =
      (.error .retriesExhausted,
       { client := some { url := url, options := o }, clientPromise := none,
         events := chainTail d url o k })
    ∧ countConnects (chainTail d url o k) = k + 1
    ∧ totalWait (chainTail d url o k) = k * d := by
  refine ⟨?_, countConnects_chainTail d url o k, totalWait_chainTail d url o k⟩
  have h := connect_fail_run k d (fun _ => false) url o k 0 mstateInit (by omega) rfl
    (fun i _ => rfl)
  simpa [mstateInit] using h

/-- C2: once one `connectToDatabase` call has succeeded (returning `c` and
leaving state `s1`), every later `connectToDatabase` call returns the
identical memoized value `c` with the state unchanged — no backing connect
invocation, no wait, no retry (the event trace does not grow) — and hence
`getDatabase` and `getCollection` (when the resolved handle carries no error
marker) also reuse `c` without reconnecting. -/
theorem c2_memoization (k d : Nat) (b : Nat → Bool) (url : String) (o : ConnOptions)
    (dbName collectionName : String) (ce : String → String → Option String)
    (s0 s1 : MState) (c : MongoClient)
    (hsucc : connectToDatabase k d b url o 0 s0 = (.ok c, s1)) :
    connectToDatabase k d b url o 0 s1 = (.ok c, s1)
    ∧ getDatabase k d b url o dbName s1 = (.ok (c.db dbName), s1)
    ∧ (ce dbName collectionName = none →
       getCollection k d b ce url o dbName collectionName s1 =
         (.ok ((c.db dbName).collection ce collectionName), s1)) := by
  have hp : s1.clientPromise = some c :=
    connect_ok_promise k d b url o (k - 0) 0 s0 c s1 rfl hsucc
  have hm := connect_memo k d b url o 0 s1 c hp
  refine ⟨hm, ?_, ?_⟩
  · simp [getDatabase, hm]
  · intro hce
    simp [getCollection, hm, Db.collection, MongoClient.db, hce]

/-- Witness for C2 at a concrete input: a first call from the initial state
against an immediately-succeeding backend, then the memoized second call. -/
theorem c2_memoization_witness :
    connectToDatabase 5 5000 (fun _ => true) "mongodb://h" defaultOptions 0
      { client := some { url := "mongodb://h", options := defaultOptions },
        clientPromise := some { url := "mongodb://h", options := defaultOptions },
        events := [.connect "mongodb://h" defaultOptions] } =
      (.ok { url := "mongodb://h", options := defaultOptions },
       { client := some { url := "mongodb://h", options := defaultOptions },
         clientPromise := some { url := "mongodb://h", options := defaultOptions },
         events := [.connect "mongodb://h" defaultOptions] }) := by
  refine (c2_memoization 5 5000 (fun _ => true) "mongodb://h" defaultOptions "db" "coll"
    (fun _ _ => none) mstateInit _ _ ?_).1
  rw [connectToDatabase]
  simp [mstateInit]

/-- C9: the `retries` counter lives in the argument list of one request
chain — every external call passes the default `0`. After a first chain
has exhausted all `k` retries (backing connect failing on each of its
`k + 1` attempts, leaving `clientPromise` null), a later independent call
again has the full budget: if the backend first succeeds at the `(j+1)`-th
attempt of the new chain with `j ≤ k`, the new call succeeds after `j`
retries of its own. -/
theorem c9_fresh_budget (k d j : Nat) (url : String) (o : ConnOptions) (b : Nat → Bool)
    (hj : j ≤ k) (hb1 : ∀ i, i ≤ k → b i = false)
    (hb2 : ∀ i, i < j → b (k + 1 + i) = false) (hb3 : b (k + 1 + j) = true) :
    connectToDatabase k d b url o 0 mstateInit =
      (.error .retriesExhausted,
       { client := some { url := url, options := o }, clientPromise := none,
         events := chainTail d url o k })
    ∧ connectToDatabase k d b url o 0
        { client := some { url := url, options := o }, clientPromise := none,
          events := chainTail d url o k } =
      (.ok { url := url, options := o },
       { client := some { url := url, options := o },
         clientPromise := some { url := url, options := o },
         events := chainTail d url o k ++ chainTail d url o j }) := by
  constructor
  · have h := connect_fail_run k d b url o k 0 mstateInit (by omega) rfl
      (fun i hi => by simpa [mstateInit, countConnects] using hb1 i hi)
    simpa [mstateInit] using h
  · have h := connect_succ_run k d b url o j 0
      { client := some { url := url, options := o }, clientPromise := none,
        events := chainTail d url o k } (by omega) rfl ?_ ?_
    · simpa using h
    · intro i hi
      simpa [countConnects_chainTail, Nat.add_comm] using hb2 i hi
    · simpa [countConnects_chainTail, Nat.add_comm] using hb3

/-- Witness for C9 at a concrete input: retry bound 1, delay 7 ms, a backend
that fails its first three invocations (exhausting the first chain and the
first attempt of the second) and succeeds on the fourth. -/
theorem c9_fresh_budget_witness :
    connectToDatabase 1 7 (fun i => decide (3 ≤ i)) "u" defaultOptions 0 mstateInit =
      (.error .retriesExhausted,
       { client := some { url := "u", options := defaultOptions }, clientPromise := none,
         events := chainTail 7 "u" defaultOptions 1 })
    ∧ connectToDatabase 1 7 (fun i => decide (3 ≤ i)) "u" defaultOptions 0
        { client := some { url := "u", options := defaultOptions }, clientPromise := none,
          events := chainTail 7 "u" defaultOptions 1 } =
      (.ok { url := "u", options := defaultOptions },
       { client := some { url := "u", options := defaultOptions },
         clientPromise := some { url := "u", options := defaultOptions },
         events := chainTail 7 "u" defaultOptions 1 ++ chainTail 7 "u" defaultOptions 1 }) :=
  c9_fresh_budget 1 7 1 "u" defaultOptions (fun i => decide (3 ≤ i))
    (by decide) (by decide) (by decide) (by decide)

/-- C10 (implicit): once `clientPromise` is set, `connectToDatabase` ignores
its `url` and `options` arguments entirely — a call with any other `url2`,
`options2` (and any `retries`) returns the existing memoized connection with
the state unchanged, and `getDatabase` invoked with a different connection
URL silently yields a database handle of the original client (whose stored
`url` is the original one, not `url2`), never a new connection or an
error. -/
theorem c10_args_ignored (k d : Nat) (b : Nat → Bool) (url2 : String) (o2 : ConnOptions)
    (retries : Nat) (dbName : String) (s : MState) (c : MongoClient)
    (hp : s.clientPromise = some c) :
    connectToDatabase k d b url2 o2 retries s = (.ok c, s)
    ∧ getDatabase k d b url2 o2 dbName s = (.ok (c.db dbName), s)
    ∧ (c.db dbName).ofClient = c := by
  refine ⟨connect_memo k d b url2 o2 retries s c hp, ?_, rfl⟩
  simp [getDatabase, connect_memo k d b url2 o2 0 s c hp]

/-- Witness for C10 at a concrete input: the memoized client targets
`mongodb://original` yet a call asking for `mongodb://other` with different
options receives it unchanged. -/
theorem c10_args_ignored_witness :
    connectToDatabase 5 5000 (fun _ => false) "mongodb://other"
      { useNewUrlParser := false, useUnifiedTopology := false, maxPoolSize := none } 0
      { client := some { url := "mongodb://original", options := defaultOptions },
        clientPromise := some { url := "mongodb://original", options := defaultOptions },
        events := [.connect "mongodb://original" defaultOptions] } =
      (.ok { url := "mongodb://original", options := defaultOptions },
       { client := some { url := "mongodb://original", options := defaultOptions },
         clientPromise := some { url := "mongodb://original", options := defaultOptions },
         events := [.connect "mongodb://original" defaultOptions] }) :=
  (c10_args_ignored 5 5000 (fun _ => false) "mongodb://other"
    { useNewUrlParser := false, useUnifiedTopology := false, maxPoolSize := none } 0 "db"
    { client := some { url := "mongodb://original", options := defaultOptions },
      clientPromise := some { url := "mongodb://original", options := defaultOptions },
      events := [.connect "mongodb://original" defaultOptions] }
    { url := "mongodb://original", options := defaultOptions } rfl).1

/-- C6: when the backing connection succeeds but the driver marks the
resolved collection handle with an error, `getCollection` raises that
marker as its lookup error instead of returning the handle; and it never
returns a handle whose error marker is set — every `ok` result carries
`error = none`. -/
theorem c6_lookup_propagation (k d : Nat) (b : Nat → Bool)
    (ce : String → String → Option String) (url : String) (o : ConnOptions)
    (dbName collectionName : String) (s : MState) :
    (∀ (e : String) (c : MongoClient) (s1 : MState),
        connectToDatabase k d b url o 0 s = (.ok c, s1) →
        ce dbName collectionName = some e →
        getCollection k d b ce url o dbName collectionName s = (.error (.lookup e), s1))
    ∧ (∀ (coll : Collection) (s1 : MState),
        getCollection k d b ce url o dbName collectionName s = (.ok coll, s1) →
        coll.error = none) := by
  constructor
  · intro e c s1 hc hce
    simp [getCollection, hc, Db.collection, MongoClient.db, hce]
  · intro coll s1 h
    rcases hc : connectToDatabase k d b url o 0 s with ⟨r, s2⟩
    cases r with
    | error e2 => simp [getCollection, hc] at h
    | ok c =>
      simp only [getCollection, hc] at h
      rcases hce : ce dbName collectionName with _ | e2
      · simp only [Db.collection, MongoClient.db, hce, Prod.mk.injEq,
          Except.ok.injEq] at h
        rw [← h.1]
      · simp [Db.collection, MongoClient.db, hce] at h

/-- Witness for C6 at a concrete input: an immediately-succeeding backend
whose resolved handle for `("db", "missing")` carries the marker
`"ns missing"`; the call raises it as a lookup error. -/
theorem c6_lookup_propagation_witness :
    getCollection 5 5000 (fun _ => true)
      (fun _ cn => if cn = "missing" then some "ns missing" else none)
      "mongodb://h" defaultOptions "db" "missing" mstateInit =
      (.error (.lookup "ns missing"),
       { client := some { url := "mongodb://h", options := defaultOptions },
         clientPromise := some { url := "mongodb://h", options := defaultOptions },
         events := [.connect "mongodb://h" defaultOptions] }) := by
  refine (c6_lookup_propagation 5 5000 (fun _ => true)
    (fun _ cn => if cn = "missing" then some "ns missing" else none)
    "mongodb://h" defaultOptions "db" "missing" mstateInit).1 "ns missing"
    { url := "mongodb://h", options := defaultOptions } _ ?_ (by simp)
  rw [connectToDatabase]
  simp [mstateInit]

/-- C4 counterexample: the claim says a `closeDatabase` call with a
connection clears both fields and lets no error escape even when the
backing close reports an error. At the concrete state holding a memoized
connection and a backing close that fails, the call returns the close
error (it escapes to the caller) and clears nothing. -/
theorem c4_close_counterexample :
    ¬ (∀ (closeOk : Bool) (s : MState),
        (closeDatabase closeOk s).1 = .ok ()
        ∧ (closeDatabase closeOk s).2.client = none
        ∧ (closeDatabase closeOk s).2.clientPromise = none) := by
  intro h
  have := h false
    { client := some { url := "u", options := defaultOptions },
      clientPromise := some { url := "u", options := defaultOptions }, events := [] }
  simp [closeDatabase] at this

/-- C4 amended: `closeDatabase` with no client is a no-op that never errors
(so a second consecutive close, or a close on a manager that never
connected, succeeds and leaves the state untouched); with a client and a
*succeeding* backing close it clears both `client` and `clientPromise` and
returns no error — but when the backing close itself reports an error, that
error propagates to the caller and neither field is cleared. -/
theorem c4_close_amended (closeOk : Bool) (s : MState) :
    (s.client = none → closeDatabase closeOk s = (.ok (), s))
    ∧ (s.client ≠ none →
        closeDatabase true s =
          (.ok (), { client := none, clientPromise := none, events := s.events })
        ∧ closeDatabase closeOk
            { client := none, clientPromise := none, events := s.events } =
          (.ok (), { client := none, clientPromise := none, events := s.events }))
    ∧ (s.client ≠ none → closeDatabase false s = (.error .closeFailed, s)) := by
  refine ⟨fun hc => by simp [closeDatabase, hc], fun hc => ?_, fun hc => ?_⟩
  · rcases hx : s.client with _ | c
    · exact absurd hx hc
    · exact ⟨by simp [closeDatabase, hx], by simp [closeDatabase]⟩
  · rcases hx : s.client with _ | c
    · exact absurd hx hc
    · simp [closeDatabase, hx]

/-- Witness for C4 (amended) at a concrete input: from a state holding a
memoized connection, a succeeding close clears both fields. -/
theorem c4_close_amended_witness :
    closeDatabase true
      { client := some { url := "u", options := defaultOptions },
        clientPromise := some { url := "u", options := defaultOptions },
        events := [.connect "u" defaultOptions] } =
      (.ok (), { client := none, clientPromise := none,
                 events := [.connect "u" defaultOptions] }) :=
  ((c4_close_amended true
    { client := some { url := "u", options := defaultOptions },
      clientPromise := some { url := "u", options := defaultOptions },
      events := [.connect "u" defaultOptions] }).2.1 (by simp)).1

/-- C5 counterexample: after `setupGracefulShutdown`, delivering `SIGTERM`
then `SIGINT` in succession invokes `server.close` twice — the second
signal re-enters the shutdown sequence, because the source's `shutdown`
function calls `server.close` unconditionally with no one-shot guard. The
claim that the sequence is triggered exactly once is false. -/
theorem c5_shutdown_counterexample :
    (deliverSignal .sigint (deliverSignal .sigterm
      (setupGracefulShutdown procInit))).serverCloseCalls = 2
    ∧ (deliverSignal .sigint (deliverSignal .sigterm
        (setupGracefulShutdown procInit))).serverCloseCalls ≠ 1 := by
  decide

/-- C5 amended: `setupGracefulShutdown` registers the same `shutdown`
handler for both `SIGTERM` and `SIGINT`, and each delivered termination
signal — of either kind, in any mix — invokes `server.close` once more, so
two signals in quick succession produce two `server.close` invocations (no
deduplication); the callback passed to `server.close` awaits
`closeDatabase()` and, when that close resolves, exits the process with
the success status 0 — when `closeDatabase` rejects, the callback rejects
unhandled and no exit status is ever passed. -/
theorem c5_shutdown_amended (sig sig1 sig2 : Sig) (p : ProcState) (closeOk : Bool)
    (m : MState) :
    deliverSignal sig (setupGracefulShutdown p) = shutdown (setupGracefulShutdown p)
    ∧ (deliverSignal sig2 (deliverSignal sig1
        (setupGracefulShutdown p))).serverCloseCalls = p.serverCloseCalls + 2
    ∧ (shutdownCallback closeOk m).1 = (closeDatabase closeOk m).2
    ∧ ((closeDatabase closeOk m).1 = .ok () →
        (shutdownCallback closeOk m).2 = some 0)
    ∧ ((closeDatabase closeOk m).1 ≠ .ok () →
        (shutdownCallback closeOk m).2 = none) := by
  refine ⟨?_, ?_, ?_, ?_, ?_⟩
  · cases sig <;> rfl
  · cases sig1 <;> cases sig2 <;> rfl
  · rcases h : closeDatabase closeOk m with ⟨r, s1⟩
    cases r <;> simp [shutdownCallback, h]
  · intro hok
    rcases h : closeDatabase closeOk m with ⟨r, s1⟩
    rw [h] at hok
    cases r with
    | ok u => simp [shutdownCallback, h]
    | error e => cases hok
  · intro hok
    rcases h : closeDatabase closeOk m with ⟨r, s1⟩
    rw [h] at hok
    cases r with
    | ok u => exact absurd rfl hok
    | error e => simp [shutdownCallback, h]

/-- C8: the code's own `defaultOptions` documents the intended default
`maxPoolSize = 10`, but `init` builds `{ ...defaultOptions, maxPoolSize }`,
whose explicit key overrides the spread even when the `maxPoolSize`
argument is absent (`undefined`, modelled `none`): calling `init` without a
`maxPoolSize` argument passes options whose `maxPoolSize` is `undefined`,
not `10`. When an argument is given, that value is used. -/
theorem c8_poolsize_clobbered :
    (initOptions none).maxPoolSize = none
    ∧ (initOptions none).maxPoolSize ≠ defaultOptions.maxPoolSize
    ∧ defaultOptions.maxPoolSize = some 10
    ∧ (∀ m : Nat, (initOptions (some m)).maxPoolSize = some m) := by
  refine ⟨rfl, by decide, rfl, fun m => rfl⟩

/-- The invariant the module state actually maintains: whenever
`clientPromise` is set it resolves to the very client stored in `client`.
(The converse fails: after a failed attempt `client` keeps the stale,
never-connected instance while `clientPromise` is null.) -/
def promiseImpliesClient (s : MState) : Prop :=
  ∀ p, s.clientPromise = some p → s.client = some p

theorem connect_preserves_inv (k d : Nat) (b : Nat → Bool) (url : String)
    (o : ConnOptions) (retries : Nat) (s : MState) (h : promiseImpliesClient s) :
    promiseImpliesClient (connectToDatabase k d b url o retries s).2 := by
  rcases connect_state_shape k d b url o (k - retries) retries s rfl with h1 | ⟨h1, h2 | h2⟩
  · rw [h1]
    exact h
  · intro p hp
    rw [h2] at hp
    cases hp
  · intro p hp
    rw [h2] at hp
    injection hp with h3
    rw [← h3]
    exact h1

theorem reachable_inv (s : MState) (h : Reachable s) : promiseImpliesClient s := by
  induction h with
  | init =>
    intro p hp
    cases hp
  | connect k d b url o _ ih => exact connect_preserves_inv k d b url o 0 _ ih
  | getDb k d b url o dbName _ ih =>
    rw [getDatabase_state]
    exact connect_preserves_inv k d b url o 0 _ ih
  | getColl k d b ce url o dbName collectionName _ ih =>
    rw [getCollection_state]
    exact connect_preserves_inv k d b url o 0 _ ih
  | initDb k d b url o _ ih =>
    rw [initializeDatabase_state]
    exact connect_preserves_inv k d b url o 0 _ ih
  | close closeOk _ ih =>
    rcases close_state_shape closeOk _ with h1 | ⟨h1, h2⟩
    · rw [h1]
      exact ih
    · intro p hp
      rw [h2] at hp
      cases hp

/-- C7 counterexample: the claimed invariant — at every reachable state
exactly one of {`client` set with `clientPromise` unset, `clientPromise`
set with `client` unset, both unset} holds, never both set — is false: the
state reached by one successful `connectToDatabase` call has *both*
`client` and `clientPromise` set (the source keeps the resolved promise in
`clientPromise` as the memo while `client` holds the client). -/
theorem c7_invariant_counterexample :
    ¬ (∀ s : MState, Reachable s →
        (s.client ≠ none ∧ s.clientPromise = none) ∨
        (s.client = none ∧ s.clientPromise ≠ none) ∨
        (s.client = none ∧ s.clientPromise = none)) := by
  intro h
  have hre : Reachable
      (connectToDatabase 5 5000 (fun _ => true) "mongodb://h" defaultOptions 0
        mstateInit).2 :=
    Reachable.connect 5 5000 (fun _ => true) "mongodb://h" defaultOptions Reachable.init
  have heval : (connectToDatabase 5 5000 (fun _ => true) "mongodb://h" defaultOptions 0
      mstateInit).2 =
      { client := some { url := "mongodb://h", options := defaultOptions },
        clientPromise := some { url := "mongodb://h", options := defaultOptions },
        events := [.connect "mongodb://h" defaultOptions] } := by
    rw [connectToDatabase]
    simp [mstateInit]
  have h2 := h _ hre
  rw [heval] at h2
  simp at h2

/-- C7 amended: the invariant the `client`/`clientPromise` pair really
maintains at every state reachable by any sequence of the five exported
operations: whenever `clientPromise` is set, `client` is set to that same
client. Both may legitimately be set at once (the memoized connected
state), and `client` may be set while `clientPromise` is null (after a
failed attempt or an exhausted chain). -/
theorem c7_invariant_amended (s : MState) (h : Reachable s) :
    ∀ p, s.clientPromise = some p → s.client = some p :=
  reachable_inv s h

/-- Witness for C7 (amended) at a concrete reachable state: after one
successful connect, `clientPromise` is set, and the theorem yields that
`client` holds the same client. -/
theorem c7_invariant_amended_witness :
    ((connectToDatabase 5 5000 (fun _ => true) "mongodb://h" defaultOptions 0
        mstateInit).2).client =
      some { url := "mongodb://h", options := defaultOptions } := by
  refine c7_invariant_amended _
    (Reachable.connect 5 5000 (fun _ => true) "mongodb://h" defaultOptions Reachable.init)
    { url := "mongodb://h", options := defaultOptions } ?_
  rw [connectToDatabase]
  simp [mstateInit]

/-- C3 counterexample: "all N concurrent callers observe the same outcome
and exactly one backing connect occurs" fails when the joined first attempt
fails: with a backend whose first connect fails and second succeeds and two
concurrent callers, the initiator retries and succeeds (`.ok`) while the
joiner — which adopted the first attempt's promise, the one the catch block
discards — observes that attempt's rejection (`.attemptFailed`), and two
backing connects occur. -/
theorem c3_dedup_counterexample :
    ¬ (∀ (b : Nat → Bool) (n : Nat), 2 ≤ n →
        countConnects
          (concurrentConnect 5 5000 b "mongodb://h" defaultOptions n).2.events = 1
        ∧ allSame (concurrentConnect 5 5000 b "mongodb://h" defaultOptions n).1) := by
  intro h
  have hs := connect_succ_run 5 5000 (fun i => decide (1 ≤ i)) "mongodb://h"
    defaultOptions 1 0 mstateInit (by omega) rfl
    (by intro i hi; interval_cases i; simp [mstateInit, countConnects])
    (by simp [mstateInit, countConnects])
  have hl : (concurrentConnect 5 5000 (fun i => decide (1 ≤ i)) "mongodb://h"
      defaultOptions 2).1 =
      [.ok { url := "mongodb://h", options := defaultOptions }, .attemptFailed] := by
    simp [concurrentConnect, hs, initiatorOutcome]
  have h2 := (h (fun i => decide (1 ≤ i)) 2 (by omega)).2
  rw [hl] at h2
  have h3 := h2 (.ok { url := "mongodb://h", options := defaultOptions }) (by simp)
    .attemptFailed (by simp)
  cases h3

/-- C3 amended: concurrent callers never start a second backing connect —
the final state (and so the whole driver-event trace) of `n` concurrent
calls is exactly that of the single initiator's run, whatever `n` — and
when the shared first attempt succeeds, exactly one backing connect occurs
and all `n` callers observe the same successful connection. But when the
first attempt fails, every joiner observes that attempt's failure, even
though the initiator goes on retrying (so outcomes need not agree). -/
theorem c3_dedup_amended (k d : Nat) (b : Nat → Bool) (url : String)
    (o : ConnOptions) (n : Nat) :
    (concurrentConnect k d b url o n).2 = (connectToDatabase k d b url o 0 mstateInit).2
    ∧ (b 0 = true →
        (concurrentConnect k d b url o n).1 =
          .ok { url := url, options := o } ::
            List.replicate (n - 1) (.ok { url := url, options := o })
        ∧ countConnects (concurrentConnect k d b url o n).2.events = 1
        ∧ allSame (concurrentConnect k d b url o n).1)
    ∧ (b 0 = false →
        ∀ x ∈ ((concurrentConnect k d b url o n).1).tail, x = .attemptFailed) := by
  refine ⟨rfl, fun hb0 => ?_, fun hb0 => ?_⟩
  · have hs := connect_succ_run k d b url o 0 0 mstateInit (by omega) rfl
      (by intro i hi; omega)
      (by simpa [mstateInit, countConnects] using hb0)
    have hl : (concurrentConnect k d b url o n).1 =
        .ok { url := url, options := o } ::
          List.replicate (n - 1) (.ok { url := url, options := o }) := by
      simp [concurrentConnect, hs, initiatorOutcome, hb0]
    refine ⟨hl, ?_, ?_⟩
    · have h4 : (concurrentConnect k d b url o n).2 =
          (connectToDatabase k d b url o 0 mstateInit).2 := rfl
      rw [h4, hs]
      simp [mstateInit, chainTail, countConnects]
    · rw [hl]
      intro x hx y hy
      have hx2 : x = COutcome.ok { url := url, options := o } := by
        rcases List.mem_cons.mp hx with h1 | h1
        · exact h1
        · exact List.eq_of_mem_replicate h1
      have hy2 : y = COutcome.ok { url := url, options := o } := by
        rcases List.mem_cons.mp hy with h1 | h1
        · exact h1
        · exact List.eq_of_mem_replicate h1
      rw [hx2, hy2]
  · intro x hx
    simp only [concurrentConnect, hb0, Bool.false_eq_true, if_false, List.tail_cons] at hx
    exact List.eq_of_mem_replicate hx
